import Mathlib

/-!
Verification of the auxite-oracle-watcher tick pipeline.

Shallow embedding of the TypeScript sources:
  src/services/price-fetcher.ts, src/services/price-analyzer.ts,
  src/services/oracle-updater.ts, src/services/alert-service.ts,
  src/services/redis-state.ts, src/utils/retry.ts, src/scheduler.ts,
  src/config.ts, src/services/oracle-reader.ts.

Conventions of the embedding:
  * JS numbers are modelled as rationals (ℚ); `Math.round` is modelled by
    `jsRound` (floor of x + 1/2, which is the JS half-up rounding rule).
  * Async calls to external services (HTTP feeds, chain RPC, the Redis
    store) are modelled by environment records carrying the outcome of each
    call (`Except String _` where the call can throw).
  * ISO timestamp strings are modelled as rational instants (milliseconds),
    matching how the code only ever compares them via `Date` arithmetic.
  * JS `toFixed` number formatting inside human-readable message strings is
    abstracted by `ratStr`; no claim refers to the formatted digits.
  * The free-form `data` JSON attachment of alert payloads is elided; no
    claim refers to it.
-/

namespace OracleWatcher

/-- JS `Math.round`: round half toward positive infinity. -/
def jsRound (q : ℚ) : ℤ := ⌊q + 1/2⌋

/-- `Math.round(x * 100) / 100` — round to 2 decimal places. -/
def round2 (q : ℚ) : ℚ := (jsRound (q * 100) : ℚ) / 100

/-- Stand-in for JS number formatting (`toFixed`) in message strings. -/
def ratStr (q : ℚ) : String := toString q.num ++ "/" ++ toString q.den

-- ════════════════════════════════════════
-- Data model (src/types.ts)
-- ════════════════════════════════════════

inductive Metal
  | gold
  | silver
  | platinum
  | palladium
  deriving DecidableEq, Repr

/-- The four per-metal price record (`MetalPrices`). -/
structure MetalPrices where
  gold : ℚ
  silver : ℚ
  platinum : ℚ
  palladium : ℚ
  deriving DecidableEq, Repr

def MetalPrices.get (p : MetalPrices) : Metal → ℚ
  | .gold => p.gold
  | .silver => p.silver
  | .platinum => p.platinum
  | .palladium => p.palladium

/-- Iteration order of `['gold', 'silver', 'platinum', 'palladium']`. -/
def metalsList : List Metal := [.gold, .silver, .platinum, .palladium]

def metalName : Metal → String
  | .gold => "Gold"
  | .silver => "Silver"
  | .platinum => "Platinum"
  | .palladium => "Palladium"

inductive PriceSource
  | goldapi
  | metalsLive
  | redisStale
  | hardcoded
  | override
  deriving DecidableEq, Repr

inductive AnomalyType
  | priceSpike
  | priceCrash
  | sourceFailure
  | staleData
  deriving DecidableEq, Repr

inductive Severity
  | warning
  | critical
  deriving DecidableEq, Repr

structure Anomaly where
  type : AnomalyType
  metal : Option Metal
  severity : Severity
  message : String
  value : Option ℚ
  deriving DecidableEq, Repr

structure AnalysisResult where
  anomalies : List Anomaly
  deviations : Metal → ℚ
  shouldUpdate : Bool
  metalsToUpdate : List Metal

/-- `LastFetchRecord` as written by the scheduler. -/
structure LastFetchRecord where
  timestamp : ℚ
  prices : MetalPrices
  source : PriceSource
  errors : List String
  deriving DecidableEq, Repr

/-- `LastUpdateRecord` as written by the scheduler. -/
structure LastUpdateRecord where
  timestamp : ℚ
  txHashes : List String
  metals : List String
  source : PriceSource
  pricesBase : MetalPrices
  pricesWithSpread : MetalPrices
  deriving DecidableEq, Repr

-- ════════════════════════════════════════
-- Configuration (src/config.ts)
-- ════════════════════════════════════════

/-- Environment-configurable thresholds of `CONFIG`. -/
structure Config where
  deviationThresholdPct : ℚ
  anomalyThresholdPct : ℚ
  staleThresholdMs : ℚ

/-- `CONFIG` defaults: 0.5, 5.0, 600000. -/
def defaultConfig : Config := { deviationThresholdPct := 0.5, anomalyThresholdPct := 5.0, staleThresholdMs := 600000 }

/-- `CONFIG.alertAfterErrors` (hardcoded). -/
def alertAfterErrors : ℕ := 3

/-- `CONFIG.maxConsecutiveErrors` (hardcoded). -/
def maxConsecutiveErrors : ℕ := 10

/-- `CONFIG.alertCooldownSeconds` (hardcoded). -/
def alertCooldownSeconds : ℕ := 300

/-- `CONFIG.troyOunceToGrams` (hardcoded). -/
def troyOunceToGrams : ℚ := 31.1035

/-- `CONFIG.fallbackPrices` (hardcoded, dollars per gram). -/
def fallbackPrices : MetalPrices := { gold := 162.4, silver := 2.86, platinum := 73.3, palladium := 58.5 }

/-- `CONFIG.fallbackPricesOz` (hardcoded, dollars per troy ounce). -/
def fallbackPricesOz : MetalPrices := { gold := 5050, silver := 89, platinum := 2280, palladium := 1820 }

-- ════════════════════════════════════════
-- Price analyzer (src/services/price-analyzer.ts, analyzePrices)
-- ════════════════════════════════════════

/-- `Math.abs((current - onChain) / onChain) * 100`. -/
def rawDeviation (cur onc : MetalPrices) (m : Metal) : ℚ :=
  |(cur.get m - onc.get m) / onc.get m| * 100

/-- The deviation percentage recorded in `deviations[metal]`. -/
def deviationFor (cur onc : MetalPrices) (m : Metal) : ℚ :=
  if onc.get m ≤ 0 then 100 else round2 (rawDeviation cur onc m)

/-- Whether the deviation loop pushes the metal onto `metalsToUpdate`. -/
def flaggedFor (cfg : Config) (cur onc : MetalPrices) (m : Metal) : Bool :=
  if onc.get m ≤ 0 then true
  else decide (rawDeviation cur onc m > cfg.deviationThresholdPct)

/-- `((current - previous) / previous) * 100`. -/
def changePct (cur prev : MetalPrices) (m : Metal) : ℚ :=
  (cur.get m - prev.get m) / prev.get m * 100

/-- One iteration of the spike/crash loop of `analyzePrices`. -/
def spikeAnomalyFor (cfg : Config) (cur prev : MetalPrices) (m : Metal) : Option Anomaly :=
  if prev.get m ≤ 0 then none
  else if |changePct cur prev m| > cfg.anomalyThresholdPct then
    some { type := if changePct cur prev m > 0 then .priceSpike else .priceCrash
           metal := some m
           severity := .critical
           message := metalName m ++ (if changePct cur prev m > 0 then " spiked " else " crashed ")
             ++ ratStr |changePct cur prev m| ++ "% in one cycle (" ++ ratStr (prev.get m)
             ++ " to " ++ ratStr (cur.get m) ++ ")"
           value := some (round2 (changePct cur prev m)) }
  else none

/-- The stale-data check of `analyzePrices`. -/
def staleAnomalies (cfg : Config) (now : ℚ) (lu : Option LastUpdateRecord) : List Anomaly :=
  match lu with
  | none => []
  | some r =>
    let dt := now - r.timestamp
    if dt > cfg.staleThresholdMs then
      [{ type := .staleData
         metal := none
         severity := .warning
         message := "Oracle has not been updated for " ++ ratStr ((jsRound (dt / 60000) : ℤ) : ℚ) ++ " minutes"
         value := some ((jsRound (dt / 60000) : ℤ) : ℚ) }]
    else []

/-- `analyzePrices(currentPrices, onChainPrices)`. The implicit reads of
`getLastFetch()` and `getLastUpdate()` are passed explicitly. -/
def analyzePrices (cfg : Config) (now : ℚ) (cur onc : MetalPrices)
    (lf : Option LastFetchRecord) (lu : Option LastUpdateRecord) : AnalysisResult :=
  let mtu := metalsList.filter (flaggedFor cfg cur onc)
  { anomalies :=
      (match lf with
       | some rec => metalsList.filterMap (spikeAnomalyFor cfg cur rec.prices)
       | none => []) ++ staleAnomalies cfg now lu
    deviations := deviationFor cur onc
    shouldUpdate := !mtu.isEmpty
    metalsToUpdate := mtu }

lemma mem_metalsList (m : Metal) : m ∈ metalsList := by
  cases m <;> simp [metalsList]

/-- C4: zero / non-positive on-chain price forces deviation 100 and an update flag. -/
theorem analyzePrices_nonpositive_onchain (cfg : Config) (now : ℚ) (cur onc : MetalPrices)
    (lf : Option LastFetchRecord) (lu : Option LastUpdateRecord) :
    (∀ m : Metal, onc.get m ≤ 0 →
        (analyzePrices cfg now cur onc lf lu).deviations m = 100 ∧
        m ∈ (analyzePrices cfg now cur onc lf lu).metalsToUpdate) ∧
    ((analyzePrices cfg now cur onc lf lu).shouldUpdate = true ↔
        (analyzePrices cfg now cur onc lf lu).metalsToUpdate ≠ []) := by
  refine ⟨fun m hm => ⟨?_, ?_⟩, ?_⟩
  · simp [analyzePrices, deviationFor, hm]
  · simp only [analyzePrices, List.mem_filter]
    exact ⟨mem_metalsList m, by simp [flaggedFor, hm]⟩
  · simp [analyzePrices, List.isEmpty_iff]

/-- Witness for C4 at a concrete input: on-chain gold price 0 forces an update. -/
theorem analyzePrices_nonpositive_onchain_witness :
    ((0 : ℚ) ≤ 0 ∧
      (analyzePrices defaultConfig 0 fallbackPricesOz
        { gold := 0, silver := 89, platinum := 2280, palladium := 1820 } none none).deviations .gold = 100) ∧
    (analyzePrices defaultConfig 0 fallbackPricesOz
        { gold := 0, silver := 89, platinum := 2280, palladium := 1820 } none none).shouldUpdate = true := by
  have h := analyzePrices_nonpositive_onchain defaultConfig 0 fallbackPricesOz
    { gold := 0, silver := 89, platinum := 2280, palladium := 1820 } none none
  refine ⟨⟨le_refl 0, (h.1 .gold (by norm_num [MetalPrices.get])).1⟩, ?_⟩
  · refine h.2.mpr ?_
    intro hempty
    have := (h.1 .gold (by norm_num [MetalPrices.get])).2
    simp [hempty] at this

lemma staleAnomalies_metal {cfg : Config} {now : ℚ} {lu : Option LastUpdateRecord}
    {a : Anomaly} (ha : a ∈ staleAnomalies cfg now lu) : a.metal = none := by
  unfold staleAnomalies at ha
  rcases lu with _ | r
  · simp at ha
  · simp only at ha
    split at ha
    · simp at ha
      subst ha
      rfl
    · simp at ha

lemma spikeAnomalyFor_eq_some {cfg : Config} {cur prev : MetalPrices} {m : Metal} {a : Anomaly}
    (h : spikeAnomalyFor cfg cur prev m = some a) :
    a.metal = some m ∧ a.severity = .critical ∧
    ¬ prev.get m ≤ 0 ∧ |changePct cur prev m| > cfg.anomalyThresholdPct ∧
    a.type = (if changePct cur prev m > 0 then AnomalyType.priceSpike else AnomalyType.priceCrash) := by
  unfold spikeAnomalyFor at h
  split at h
  · simp at h
  · next hle =>
    split at h
    · next hgt =>
      simp only [Option.some.injEq] at h
      subst h
      exact ⟨rfl, rfl, hle, hgt, rfl⟩
    · simp at h

lemma spikeAnomalyFor_fires {cfg : Config} {cur prev : MetalPrices} {m : Metal}
    (hprev : ¬ prev.get m ≤ 0)
    (hgt : |changePct cur prev m| > cfg.anomalyThresholdPct) :
    ∃ a, spikeAnomalyFor cfg cur prev m = some a ∧ a.metal = some m ∧
      a.type = (if changePct cur prev m > 0 then AnomalyType.priceSpike else AnomalyType.priceCrash) := by
  unfold spikeAnomalyFor
  rw [if_neg hprev, if_pos hgt]
  exact ⟨_, rfl, rfl, rfl⟩

lemma mem_analyzePrices_anomalies {cfg : Config} {now : ℚ} {cur onc : MetalPrices}
    {rec : LastFetchRecord} {lu : Option LastUpdateRecord} {a : Anomaly} :
    a ∈ (analyzePrices cfg now cur onc (some rec) lu).anomalies ↔
      (∃ m, spikeAnomalyFor cfg cur rec.prices m = some a) ∨ a ∈ staleAnomalies cfg now lu := by
  simp only [analyzePrices, List.mem_append, List.mem_filterMap]
  constructor
  · rintro (⟨m, _, hm⟩ | h)
    · exact Or.inl ⟨m, hm⟩
    · exact Or.inr h
  · rintro (⟨m, hm⟩ | h)
    · exact Or.inl ⟨m, mem_metalsList m, hm⟩
    · exact Or.inr h

/-- C5: a spike (resp. crash) anomaly fires for a metal with a positive previous
fetch value exactly when the percent change is strictly above the anomaly
threshold (resp. strictly below its negation); boundary equality fires nothing;
metals with absent or non-positive previous value never get a spike/crash
anomaly; and the anomalies do not influence `shouldUpdate`. -/
theorem analyzePrices_spike_crash (cfg : Config) (now : ℚ) (cur onc : MetalPrices)
    (rec : LastFetchRecord) (lu : Option LastUpdateRecord)
    (hthr : 0 ≤ cfg.anomalyThresholdPct) :
    (∀ m : Metal, 0 < rec.prices.get m →
      ((∃ a ∈ (analyzePrices cfg now cur onc (some rec) lu).anomalies,
          a.metal = some m ∧ a.type = .priceSpike) ↔
        changePct cur rec.prices m > cfg.anomalyThresholdPct) ∧
      ((∃ a ∈ (analyzePrices cfg now cur onc (some rec) lu).anomalies,
          a.metal = some m ∧ a.type = .priceCrash) ↔
        changePct cur rec.prices m < -cfg.anomalyThresholdPct) ∧
      (∀ a ∈ (analyzePrices cfg now cur onc (some rec) lu).anomalies, a.metal = some m →
        a.severity = .critical ∧ (a.type = .priceSpike ∨ a.type = .priceCrash))) ∧
    (∀ m : Metal, rec.prices.get m ≤ 0 →
      ∀ a ∈ (analyzePrices cfg now cur onc (some rec) lu).anomalies, a.metal ≠ some m) ∧
    (∀ a ∈ (analyzePrices cfg now cur onc none lu).anomalies, a.metal = none) ∧
    (analyzePrices cfg now cur onc (some rec) lu).shouldUpdate =
      (analyzePrices cfg now cur onc none none).shouldUpdate := by
  refine ⟨fun m hm => ⟨?_, ?_, ?_⟩, fun m hm a ha => ?_, fun a ha => ?_, rfl⟩
  · -- spike iff change above the threshold
    constructor
    · rintro ⟨a, ha, hmet, hty⟩
      rcases mem_analyzePrices_anomalies.mp ha with ⟨m', hm'⟩ | hst
      · obtain ⟨hmet', _, _, hgt, htype⟩ := spikeAnomalyFor_eq_some hm'
        rw [hmet'] at hmet
        obtain rfl : m = m' := by simpa using hmet.symm
        rw [hty] at htype
        by_cases hpos : changePct cur rec.prices m > 0
        · have : |changePct cur rec.prices m| = changePct cur rec.prices m := abs_of_pos hpos
          rw [this] at hgt
          exact hgt
        · rw [if_neg hpos] at htype
          exact absurd htype (by simp)
      · rw [staleAnomalies_metal hst] at hmet
        exact absurd hmet (by simp)
    · intro hgt
      have hpos : changePct cur rec.prices m > 0 := lt_of_le_of_lt hthr hgt
      have habs : |changePct cur rec.prices m| > cfg.anomalyThresholdPct := by
        rw [abs_of_pos hpos]; exact hgt
      obtain ⟨a, hsome, hmet, hty⟩ := spikeAnomalyFor_fires (not_le.mpr hm) habs
      exact ⟨a, mem_analyzePrices_anomalies.mpr (Or.inl ⟨m, hsome⟩), hmet, by rwa [if_pos hpos] at hty⟩
  · -- crash iff change below minus the threshold
    constructor
    · rintro ⟨a, ha, hmet, hty⟩
      rcases mem_analyzePrices_anomalies.mp ha with ⟨m', hm'⟩ | hst
      · obtain ⟨hmet', _, _, hgt, htype⟩ := spikeAnomalyFor_eq_some hm'
        rw [hmet'] at hmet
        obtain rfl : m = m' := by simpa using hmet.symm
        rw [hty] at htype
        by_cases hpos : changePct cur rec.prices m > 0
        · rw [if_pos hpos] at htype
          exact absurd htype (by simp)
        · have hle' : changePct cur rec.prices m ≤ 0 := not_lt.mp hpos
          have : |changePct cur rec.prices m| = -(changePct cur rec.prices m) := abs_of_nonpos hle'
          rw [this] at hgt
          linarith
      · rw [staleAnomalies_metal hst] at hmet
        exact absurd hmet (by simp)
    · intro hlt
      have hneg : changePct cur rec.prices m < 0 := lt_of_lt_of_le hlt (by linarith)
      have habs : |changePct cur rec.prices m| > cfg.anomalyThresholdPct := by
        rw [abs_of_neg hneg]; linarith
      obtain ⟨a, hsome, hmet, hty⟩ := spikeAnomalyFor_fires (not_le.mpr hm) habs
      refine ⟨a, mem_analyzePrices_anomalies.mpr (Or.inl ⟨m, hsome⟩), hmet, ?_⟩
      rwa [if_neg (not_lt.mpr (le_of_lt hneg))] at hty
  · -- every anomaly carrying this metal is a critical spike or crash
    intro a ha hmet
    rcases mem_analyzePrices_anomalies.mp ha with ⟨m', hm'⟩ | hst
    · obtain ⟨_, hsev, _, _, htype⟩ := spikeAnomalyFor_eq_some hm'
      refine ⟨hsev, ?_⟩
      rw [htype]
      split
      · exact Or.inl rfl
      · exact Or.inr rfl
    · rw [staleAnomalies_metal hst] at hmet
      exact absurd hmet (by simp)
  · -- non-positive previous value: no anomaly for the metal
    intro hmet
    rcases mem_analyzePrices_anomalies.mp ha with ⟨m', hm'⟩ | hst
    · obtain ⟨hmet', _, hle, _, _⟩ := spikeAnomalyFor_eq_some hm'
      rw [hmet'] at hmet
      obtain rfl : m = m' := by simpa using hmet.symm
      exact hle hm
    · rw [staleAnomalies_metal hst] at hmet
      exact absurd hmet (by simp)
  · -- no previous fetch: only metal-less (stale) anomalies
    simp only [analyzePrices, List.nil_append] at ha
    exact staleAnomalies_metal ha

/-- Witness for C5: a 10% gold move with a 5% threshold fires a critical spike;
a 5%-on-the-nose move (boundary) fires nothing. -/
theorem analyzePrices_spike_crash_witness :
    (∃ a ∈ (analyzePrices defaultConfig 0
        { gold := 110, silver := 89, platinum := 2280, palladium := 1820 }
        fallbackPricesOz
        (some { timestamp := 0
                prices := { gold := 100, silver := 89, platinum := 2280, palladium := 1820 }
                source := .goldapi, errors := [] }) none).anomalies,
      a.metal = some .gold ∧ a.type = .priceSpike) ∧
    ¬ (∃ a ∈ (analyzePrices defaultConfig 0
        { gold := 105, silver := 89, platinum := 2280, palladium := 1820 }
        fallbackPricesOz
        (some { timestamp := 0
                prices := { gold := 100, silver := 89, platinum := 2280, palladium := 1820 }
                source := .goldapi, errors := [] }) none).anomalies,
      a.metal = some .gold ∧ a.type = .priceSpike) := by
  constructor
  · exact ((analyzePrices_spike_crash defaultConfig 0
      { gold := 110, silver := 89, platinum := 2280, palladium := 1820 } fallbackPricesOz
      { timestamp := 0
        prices := { gold := 100, silver := 89, platinum := 2280, palladium := 1820 }
        source := .goldapi, errors := [] } none (by norm_num [defaultConfig])).1 .gold
      (by norm_num [MetalPrices.get])).1.mpr
      (by norm_num [changePct, MetalPrices.get, defaultConfig])
  · intro hcontra
    have := ((analyzePrices_spike_crash defaultConfig 0
      { gold := 105, silver := 89, platinum := 2280, palladium := 1820 } fallbackPricesOz
      { timestamp := 0
        prices := { gold := 100, silver := 89, platinum := 2280, palladium := 1820 }
        source := .goldapi, errors := [] } none (by norm_num [defaultConfig])).1 .gold
      (by norm_num [MetalPrices.get])).1.mp hcontra
    norm_num [changePct, MetalPrices.get, defaultConfig] at this

-- ════════════════════════════════════════
-- Price fetcher (src/services/price-fetcher.ts)
-- ════════════════════════════════════════

instance {ε α : Type} [DecidableEq ε] [DecidableEq α] : DecidableEq (Except ε α)
  | .error a, .error b =>
    if h : a = b then isTrue (h ▸ rfl) else isFalse (fun hc => h (Except.error.inj hc))
  | .error _, .ok _ => isFalse (fun hc => Except.noConfusion hc)
  | .ok _, .error _ => isFalse (fun hc => Except.noConfusion hc)
  | .ok a, .ok b =>
    if h : a = b then isTrue (h ▸ rfl) else isFalse (fun hc => h (Except.ok.inj hc))

/-- Outcome of one GoldAPI per-symbol HTTP request: a network throw, or a
response with a status code and an optional positive price field
(`data.price` absent / falsy is `none`). -/
structure HttpPriceResp where
  status : ℕ
  price : Option ℚ
  deriving DecidableEq, Repr

/-- Per-symbol outcomes for the four GoldAPI requests (XAU, XAG, XPT, XPD). -/
structure GoldApiEnv where
  xau : Except String HttpPriceResp
  xag : Except String HttpPriceResp
  xpt : Except String HttpPriceResp
  xpd : Except String HttpPriceResp
  deriving DecidableEq, Repr

/-- metals.live per-ounce fields extracted from the response array (the scan
over the two accepted JSON shapes is abstracted into the four fields). -/
structure MetalsLiveData where
  gold : Option ℚ
  silver : Option ℚ
  platinum : Option ℚ
  palladium : Option ℚ
  deriving DecidableEq, Repr

structure FetchResult where
  prices : MetalPrices
  pricesOz : MetalPrices
  source : PriceSource
  fetchDurationMs : ℕ
  errors : List String
  deriving DecidableEq, Repr

structure FetchEnv where
  goldApiKey : String
  goldapi : GoldApiEnv
  metalsLive : Except String MetalsLiveData
  stale : Except String (Option MetalPrices)
  elapsedMs : ℕ
  deriving DecidableEq, Repr

/-- One iteration of the symbol loop of `fetchFromGoldApi`: throw on network
error, on HTTP 429, on a non-2xx status, and on a missing or non-positive
price. -/
def goldApiSymbolPrice (symbol : String) (r : Except String HttpPriceResp) : Except String ℚ :=
  match r with
  | .error e => .error e
  | .ok resp =>
    if resp.status = 429 then .error "GoldAPI rate limited"
    else if ¬ (200 ≤ resp.status ∧ resp.status ≤ 299) then
      .error ("GoldAPI " ++ symbol ++ ": HTTP " ++ toString resp.status)
    else
      match resp.price with
      | none => .error ("GoldAPI " ++ symbol ++ ": invalid price undefined")
      | some p =>
        if p ≤ 0 then .error ("GoldAPI " ++ symbol ++ ": invalid price " ++ ratStr p)
        else .ok p

/-- `fetchFromGoldApi()`: fails as a whole if the key is unset or any symbol
fails; otherwise returns ounce prices and their per-gram conversion. -/
def fetchFromGoldApi (key : String) (env : GoldApiEnv) :
    Except String (MetalPrices × MetalPrices) :=
  if key = "" then .error "GOLDAPI_KEY not set"
  else
    match goldApiSymbolPrice "XAU" env.xau with
    | .error e => .error e
    | .ok gold =>
      match goldApiSymbolPrice "XAG" env.xag with
      | .error e => .error e
      | .ok silver =>
        match goldApiSymbolPrice "XPT" env.xpt with
        | .error e => .error e
        | .ok platinum =>
          match goldApiSymbolPrice "XPD" env.xpd with
          | .error e => .error e
          | .ok palladium =>
            .ok ({ gold := gold / troyOunceToGrams
                   silver := silver / troyOunceToGrams
                   platinum := platinum / troyOunceToGrams
                   palladium := palladium / troyOunceToGrams },
                 { gold := gold, silver := silver, platinum := platinum, palladium := palladium })

/-- JS `x || d` over an optional numeric field: `undefined` and `0` fall back. -/
def jsOr (o : Option ℚ) (d : ℚ) : ℚ :=
  match o with
  | none => d
  | some v => if v = 0 then d else v

/-- `fetchFromMetalsLive()`: single call; requires a (truthy) gold field,
missing other fields fall back to `CONFIG.fallbackPricesOz`. -/
def fetchFromMetalsLive (res : Except String MetalsLiveData) :
    Except String (MetalPrices × MetalPrices) :=
  match res with
  | .error e => .error e
  | .ok d =>
    if d.gold = none ∨ d.gold = some 0 then .error "metals.live: no gold price found"
    else
      .ok ({ gold := jsOr d.gold fallbackPricesOz.gold / troyOunceToGrams
             silver := jsOr d.silver fallbackPricesOz.silver / troyOunceToGrams
             platinum := jsOr d.platinum fallbackPricesOz.platinum / troyOunceToGrams
             palladium := jsOr d.palladium fallbackPricesOz.palladium / troyOunceToGrams },
           { gold := jsOr d.gold fallbackPricesOz.gold
             silver := jsOr d.silver fallbackPricesOz.silver
             platinum := jsOr d.platinum fallbackPricesOz.platinum
             palladium := jsOr d.palladium fallbackPricesOz.palladium })

/-- `fetchPrices()`: the fallback chain GoldAPI → metals.live → Redis stale →
hardcoded. Note that the stale-cache branch only appends an error when the
Redis read itself throws; a stale record that is absent or has a non-positive
gold price falls through silently. -/
def fetchPrices (env : FetchEnv) : FetchResult :=
  match fetchFromGoldApi env.goldApiKey env.goldapi with
  | .ok (prices, pricesOz) =>
    { prices := prices, pricesOz := pricesOz, source := .goldapi
      fetchDurationMs := env.elapsedMs, errors := [] }
  | .error e1 =>
    match fetchFromMetalsLive env.metalsLive with
    | .ok (prices, pricesOz) =>
      { prices := prices, pricesOz := pricesOz, source := .metalsLive
        fetchDurationMs := env.elapsedMs, errors := ["GoldAPI: " ++ e1] }
    | .error e2 =>
      match env.stale with
      | .ok (some stale) =>
        if stale.gold > 0 then
          { prices := stale
            pricesOz := { gold := stale.gold * troyOunceToGrams
                          silver := stale.silver * troyOunceToGrams
                          platinum := stale.platinum * troyOunceToGrams
                          palladium := stale.palladium * troyOunceToGrams }
            source := .redisStale, fetchDurationMs := env.elapsedMs
            errors := ["GoldAPI: " ++ e1, "metals.live: " ++ e2] }
        else
          { prices := fallbackPrices, pricesOz := fallbackPricesOz, source := .hardcoded
            fetchDurationMs := env.elapsedMs
            errors := ["GoldAPI: " ++ e1, "metals.live: " ++ e2] }
      | .ok none =>
        { prices := fallbackPrices, pricesOz := fallbackPricesOz, source := .hardcoded
          fetchDurationMs := env.elapsedMs
          errors := ["GoldAPI: " ++ e1, "metals.live: " ++ e2] }
      | .error e3 =>
        { prices := fallbackPrices, pricesOz := fallbackPricesOz, source := .hardcoded
          fetchDurationMs := env.elapsedMs
          errors := ["GoldAPI: " ++ e1, "metals.live: " ++ e2, "Redis stale: " ++ e3] }

/-- C1 counterexample: when GoldAPI and metals.live both fail and the stale
cache holds a record with non-positive gold, the stale source is tried and
rejected, yet no reason for it is appended: the hardcoded result carries only
2 error entries for its 3 failed predecessors, refuting "every source that
failed before the chosen one appends a reason". -/
theorem fetchPrices_silent_stale_counterexample :
    (fetchPrices { goldApiKey := ""
                   goldapi := { xau := .error "x", xag := .error "x", xpt := .error "x", xpd := .error "x" }
                   metalsLive := .error "metals.live: HTTP 500"
                   stale := .ok (some { gold := 0, silver := 1, platinum := 1, palladium := 1 })
                   elapsedMs := 0 }).source = PriceSource.hardcoded ∧
    (fetchPrices { goldApiKey := ""
                   goldapi := { xau := .error "x", xag := .error "x", xpt := .error "x", xpd := .error "x" }
                   metalsLive := .error "metals.live: HTTP 500"
                   stale := .ok (some { gold := 0, silver := 1, platinum := 1, palladium := 1 })
                   elapsedMs := 0 }).errors =
      ["GoldAPI: GOLDAPI_KEY not set", "metals.live: metals.live: HTTP 500"] ∧
    (fetchPrices { goldApiKey := ""
                   goldapi := { xau := .error "x", xag := .error "x", xpt := .error "x", xpd := .error "x" }
                   metalsLive := .error "metals.live: HTTP 500"
                   stale := .ok (some { gold := 0, silver := 1, platinum := 1, palladium := 1 })
                   elapsedMs := 0 }).errors.length ≠ 3 := by
  refine ⟨rfl, rfl, by decide⟩

/-- C1 (amended): `fetchPrices` always returns (never throws) with a source
from the enum, trying GoldAPI, then metals.live, then the stale cache
(accepted only when the cached gold price is positive), then the hardcoded
table which always succeeds; each source that failed by THROWING before the
chosen one appends a human-readable reason, while a stale record that is
absent or has non-positive gold is passed over silently. -/
theorem fetchPrices_fallback_chain (env : FetchEnv) :
    ((fetchPrices env).source = .goldapi ∨ (fetchPrices env).source = .metalsLive ∨
     (fetchPrices env).source = .redisStale ∨ (fetchPrices env).source = .hardcoded) ∧
    (∀ p pOz, fetchFromGoldApi env.goldApiKey env.goldapi = .ok (p, pOz) →
      (fetchPrices env).source = .goldapi ∧ (fetchPrices env).prices = p ∧
      (fetchPrices env).errors = []) ∧
    (∀ e1 p pOz, fetchFromGoldApi env.goldApiKey env.goldapi = .error e1 →
      fetchFromMetalsLive env.metalsLive = .ok (p, pOz) →
      (fetchPrices env).source = .metalsLive ∧ (fetchPrices env).prices = p ∧
      (fetchPrices env).errors = ["GoldAPI: " ++ e1]) ∧
    (∀ e1 e2 stale, fetchFromGoldApi env.goldApiKey env.goldapi = .error e1 →
      fetchFromMetalsLive env.metalsLive = .error e2 →
      env.stale = .ok (some stale) → 0 < stale.gold →
      (fetchPrices env).source = .redisStale ∧ (fetchPrices env).prices = stale ∧
      (fetchPrices env).errors = ["GoldAPI: " ++ e1, "metals.live: " ++ e2]) ∧
    (∀ e1 e2, fetchFromGoldApi env.goldApiKey env.goldapi = .error e1 →
      fetchFromMetalsLive env.metalsLive = .error e2 →
      (∀ stale, env.stale = .ok (some stale) → stale.gold ≤ 0) →
      (env.stale = .ok none ∨ (∃ s, env.stale = .ok (some s)) →
        (fetchPrices env).source = .hardcoded ∧
        (fetchPrices env).prices = fallbackPrices ∧
        (fetchPrices env).errors = ["GoldAPI: " ++ e1, "metals.live: " ++ e2])) ∧
    (∀ e1 e2 e3, fetchFromGoldApi env.goldApiKey env.goldapi = .error e1 →
      fetchFromMetalsLive env.metalsLive = .error e2 →
      env.stale = .error e3 →
      (fetchPrices env).source = .hardcoded ∧
      (fetchPrices env).errors =
        ["GoldAPI: " ++ e1, "metals.live: " ++ e2, "Redis stale: " ++ e3]) := by
  refine ⟨?_, ?_, ?_, ?_, ?_, ?_⟩
  · unfold fetchPrices
    rcases hga : fetchFromGoldApi env.goldApiKey env.goldapi with e1 | ⟨p, pOz⟩
    · rcases hml : fetchFromMetalsLive env.metalsLive with e2 | ⟨p, pOz⟩
      · rcases hst : env.stale with e3 | st
        · simp
        · rcases st with _ | s
          · simp
          · by_cases hg : s.gold > 0
            · simp [hg]
            · simp [hg]
      · simp
    · simp
  · intro p pOz hga
    unfold fetchPrices
    rw [hga]
    exact ⟨rfl, rfl, rfl⟩
  · intro e1 p pOz hga hml
    unfold fetchPrices
    rw [hga, hml]
    exact ⟨rfl, rfl, rfl⟩
  · intro e1 e2 stale hga hml hst hg
    unfold fetchPrices
    rw [hga, hml, hst]
    simp [hg]
  · intro e1 e2 hga hml hstale hcase
    unfold fetchPrices
    rw [hga, hml]
    rcases hcase with hnone | ⟨s, hsome⟩
    · rw [hnone]
      exact ⟨rfl, rfl, rfl⟩
    · rw [hsome]
      have := hstale s hsome
      simp [not_lt.mpr this]
  · intro e1 e2 e3 hga hml hst
    unfold fetchPrices
    rw [hga, hml, hst]
    exact ⟨rfl, rfl⟩

/-- Witness for C1 at a concrete input: both feeds down, stale cache has a
positive gold price, so the stale source is chosen with 2 recorded reasons. -/
theorem fetchPrices_fallback_chain_witness :
    (fetchPrices { goldApiKey := ""
                   goldapi := { xau := .error "x", xag := .error "x", xpt := .error "x", xpd := .error "x" }
                   metalsLive := .error "metals.live: HTTP 500"
                   stale := .ok (some { gold := 160, silver := 2, platinum := 70, palladium := 55 })
                   elapsedMs := 0 }).source = PriceSource.redisStale ∧
    (fetchPrices { goldApiKey := ""
                   goldapi := { xau := .error "x", xag := .error "x", xpt := .error "x", xpd := .error "x" }
                   metalsLive := .error "metals.live: HTTP 500"
                   stale := .ok (some { gold := 160, silver := 2, platinum := 70, palladium := 55 })
                   elapsedMs := 0 }).errors =
      ["GoldAPI: GOLDAPI_KEY not set", "metals.live: metals.live: HTTP 500"] := by
  have h := (fetchPrices_fallback_chain
    { goldApiKey := ""
      goldapi := { xau := .error "x", xag := .error "x", xpt := .error "x", xpd := .error "x" }
      metalsLive := .error "metals.live: HTTP 500"
      stale := .ok (some { gold := 160, silver := 2, platinum := 70, palladium := 55 })
      elapsedMs := 0 }).2.2.2.1 "GOLDAPI_KEY not set" "metals.live: HTTP 500"
    { gold := 160, silver := 2, platinum := 70, palladium := 55 }
    (by decide) (by decide) rfl (by norm_num)
  exact ⟨h.1, h.2.2⟩

-- ════════════════════════════════════════
-- Retry utility (src/utils/retry.ts, withRetry)
-- ════════════════════════════════════════

/-- Loop body of `withRetry`: `attempt` is the current 0-based attempt index,
`remaining` is `maxRetries - attempt`. Returns the final outcome, the number
of invocations of `fn`, and the list of inter-attempt delays slept. -/
def withRetryGo {α : Type} (fn : ℕ → Except String α) (baseDelayMs maxDelayMs : ℕ) :
    ℕ → ℕ → Except String α × ℕ × List ℕ
  | attempt, 0 =>
    match fn attempt with
    | .ok v => (.ok v, 1, [])
    | .error e => (.error e, 1, [])
  | attempt, remaining + 1 =>
    match fn attempt with
    | .ok v => (.ok v, 1, [])
    | .error _ =>
      let d := min (baseDelayMs * 2 ^ attempt) maxDelayMs
      let rest := withRetryGo fn baseDelayMs maxDelayMs (attempt + 1) remaining
      (rest.1, rest.2.1 + 1, d :: rest.2.2)

/-- `withRetry(fn, { maxRetries, baseDelayMs, maxDelayMs })`: the loop runs
for `attempt` in `0 .. maxRetries` inclusive, sleeping
`min(baseDelayMs * 2 ^ attempt, maxDelayMs)` between failed attempts, and
rethrows the last error after the final attempt. -/
def withRetry {α : Type} (fn : ℕ → Except String α) (maxRetries baseDelayMs maxDelayMs : ℕ) :
    Except String α × ℕ × List ℕ :=
  withRetryGo fn baseDelayMs maxDelayMs 0 maxRetries

lemma withRetryGo_spec {α : Type} (fn : ℕ → Except String α) (b M : ℕ) :
    ∀ r a,
      1 ≤ (withRetryGo fn b M a r).2.1 ∧
      (withRetryGo fn b M a r).2.1 ≤ r + 1 ∧
      (withRetryGo fn b M a r).2.2 =
        (List.range ((withRetryGo fn b M a r).2.1 - 1)).map
          (fun i => min (b * 2 ^ (a + i)) M) ∧
      ((∀ i, a ≤ i → i ≤ a + r → ∃ e, fn i = .error e) →
        (withRetryGo fn b M a r).2.1 = r + 1) := by
  intro r
  induction r with
  | zero =>
    intro a
    unfold withRetryGo
    rcases hfa : fn a with e | v <;> simp [hfa]
  | succ n ih =>
    intro a
    unfold withRetryGo
    rcases hfa : fn a with e | v
    · simp only [hfa]
      obtain ⟨h1, h2, h3, h4⟩ := ih (a + 1)
      set t := withRetryGo fn b M (a + 1) n with ht
      refine ⟨by omega, by omega, ?_, ?_⟩
      · have : t.2.1 + 1 - 1 = (t.2.1 - 1) + 1 := by omega
        rw [this, List.range_succ_eq_map, List.map_cons, List.map_map]
        simp only [add_zero]
        congr 1
        rw [h3]
        apply List.map_congr_left
        intro i _
        have hexp : a + 1 + i = a + Nat.succ i := by omega
        simp [Function.comp_apply, hexp]
      · intro hall
        have : t.2.1 = n + 1 := by
          apply h4
          intro i hi1 hi2
          exact hall i (by omega) (by omega)
        omega
    · simp [hfa]
      exact ⟨a, le_refl a, by omega, fun s hc => by rw [hfa] at hc; exact Except.noConfusion hc⟩

/-- C6 counterexample: with the default options `maxRetries = 3`,
`baseDelayMs = 2000`, `maxDelayMs = 15000` — those used for
`oracle.setAllPrices` — an always-failing submission function is invoked 4
times (1 initial try + 3 retries), not at most 3 as the claim states. -/
theorem withRetry_invocation_counterexample :
    (withRetry (fun _ => (Except.error "boom" : Except String ℕ)) 3 2000 15000).2.1 = 4 ∧
    ¬ (withRetry (fun _ => (Except.error "boom" : Except String ℕ)) 3 2000 15000).2.1 ≤ 3 := by
  constructor <;> decide

/-- C6 (amended): with the default options, the submission function is invoked
at least once and at most 4 times (1 initial attempt + `maxRetries = 3`
retries); the i-th inter-attempt delay is `min(2000 * 2 ^ i, 15000)`
milliseconds; and when every attempt fails the function is invoked exactly 4
times. -/
theorem withRetry_backoff_bounds {α : Type} (fn : ℕ → Except String α) :
    1 ≤ (withRetry fn 3 2000 15000).2.1 ∧
    (withRetry fn 3 2000 15000).2.1 ≤ 4 ∧
    (withRetry fn 3 2000 15000).2.2 =
      (List.range ((withRetry fn 3 2000 15000).2.1 - 1)).map
        (fun i => min (2000 * 2 ^ i) 15000) ∧
    ((∀ i, i ≤ 3 → ∃ e, fn i = .error e) → (withRetry fn 3 2000 15000).2.1 = 4) := by
  obtain ⟨h1, h2, h3, h4⟩ := withRetryGo_spec fn 2000 15000 3 0
  unfold withRetry
  refine ⟨h1, h2, ?_, fun hall => h4 (fun i _ hi => hall i (by omega))⟩
  rw [h3]
  apply List.map_congr_left
  intro i _
  rw [zero_add]

/-- Witness for C6: an all-failing function hits exactly 4 invocations and the
delays 2000, 4000, 8000 ms (the 15000 ms cap never binds at these defaults). -/
theorem withRetry_backoff_bounds_witness :
    (withRetry (fun _ => (Except.error "boom" : Except String ℕ)) 3 2000 15000).2.1 = 4 ∧
    (withRetry (fun _ => (Except.error "boom" : Except String ℕ)) 3 2000 15000).2.2 =
      [2000, 4000, 8000] := by
  refine ⟨(withRetry_backoff_bounds (fun _ => (Except.error "boom" : Except String ℕ))).2.2.2
    (fun i _ => ⟨"boom", rfl⟩), by decide⟩

-- ════════════════════════════════════════
-- E6 fixed-point encoding (src/services/oracle-updater.ts toE6,
-- src/services/oracle-reader.ts fromE6)
-- ════════════════════════════════════════

/-- `toE6(price) = BigInt(Math.round(price * 1_000_000))` (write path). -/
def toE6 (price : ℚ) : ℤ := jsRound (price * 1000000)

/-- The reader's `fromE6 = (val) => Number(val) / 1_000_000` (read path). -/
def fromE6 (v : ℤ) : ℚ := (v : ℚ) / 1000000

/-- C7 counterexample: `toE6` rounds to the nearest integer (JS `Math.round`),
it does not truncate: at price 1/2000000 the product with 1e6 is 0.5, which
truncates to 0 but encodes to 1. -/
theorem toE6_round_counterexample :
    toE6 (1 / 2000000) = 1 ∧
    ⌊(1 / 2000000 : ℚ) * 1000000⌋ = 0 ∧
    toE6 (1 / 2000000) ≠ ⌊(1 / 2000000 : ℚ) * 1000000⌋ := by
  have h1 : toE6 (1 / 2000000) = 1 := by
    unfold toE6 jsRound
    norm_num
  have h2 : ⌊(1 / 2000000 : ℚ) * 1000000⌋ = 0 := by norm_num
  exact ⟨h1, h2, by rw [h1, h2]; decide⟩

/-- C7 (amended): the E6 convention is price times 1e6 rounded half-up to the
nearest integer (not truncated), and the write path `toE6` and the read path
`fromE6` are mutually consistent: decode-then-encode is the identity on
on-chain E6 integers, and encode-then-decode changes a price by at most
1/2000000 (half a micro-unit). -/
theorem e6_read_write_consistent (p : ℚ) (n : ℤ) :
    toE6 (fromE6 n) = n ∧
    |fromE6 (toE6 p) - p| ≤ 1 / 2000000 := by
  constructor
  · unfold toE6 fromE6 jsRound
    have h : (n : ℚ) / 1000000 * 1000000 = (n : ℚ) := by
      field_simp
    rw [h]
    have : ((n : ℚ) + 1 / 2) = (1 / 2 : ℚ) + (n : ℚ) := by ring
    rw [this, Int.floor_add_int]
    norm_num
  · unfold toE6 fromE6 jsRound
    have hle : (⌊p * 1000000 + 1 / 2⌋ : ℚ) ≤ p * 1000000 + 1 / 2 := Int.floor_le _
    have hlt : p * 1000000 + 1 / 2 < (⌊p * 1000000 + 1 / 2⌋ : ℚ) + 1 := Int.lt_floor_add_one _
    rw [abs_le]
    constructor <;> linarith

-- ════════════════════════════════════════
-- Spread configuration (src/services/redis-state.ts getSpreadConfig)
-- ════════════════════════════════════════

structure SpreadRate where
  buy : ℚ
  sell : ℚ
  deriving DecidableEq, Repr

/-- Per-metal spread configuration (`SpreadConfig.metals`). -/
structure SpreadConfig where
  gold : SpreadRate
  silver : SpreadRate
  platinum : SpreadRate
  palladium : SpreadRate
  deriving DecidableEq, Repr

/-- `DEFAULT_SPREAD` in redis-state.ts. -/
def defaultSpreadConfig : SpreadConfig :=
  { gold := { buy := 1.5, sell := 1.5 }
    silver := { buy := 2.0, sell := 2.0 }
    platinum := { buy := 2.0, sell := 2.0 }
    palladium := { buy := 2.5, sell := 2.5 } }

/-- `getSpreadConfig()`: the stored blob when present and well-formed,
otherwise `DEFAULT_SPREAD` (lenient parse modelled as `Option`). -/
def getSpreadConfig (stored : Option SpreadConfig) : SpreadConfig :=
  stored.getD defaultSpreadConfig

-- ════════════════════════════════════════
-- Oracle updater (src/services/oracle-updater.ts, updateOracle)
-- ════════════════════════════════════════

structure Tx where
  hash : String
  deriving DecidableEq, Repr

/-- Chain-side outcomes for one `updateOracle` run: the signing key from the
environment, the result of each `setAllPrices` submission attempt, and the
result of awaiting the confirmation of a submitted transaction. -/
structure UpdateEnv where
  privateKey : String
  submit : ℕ → Except String Tx
  waitOk : Except String Unit

structure UpdateOutcome where
  success : Bool
  txHash : String
  error : String
  deriving DecidableEq, Repr

/-- The five E6 arguments of `setAllPrices(gold, silver, platinum, palladium, eth)`. -/
def e6Args (prices : MetalPrices) (ethPrice : ℚ) : List ℤ :=
  [toE6 prices.gold, toE6 prices.silver, toE6 prices.platinum, toE6 prices.palladium,
   toE6 ethPrice]

/-- `updateOracle(prices, ethPrice)`: missing key is an immediate failure;
otherwise one `setAllPrices` transaction with the raw prices in E6, retried by
`withRetry` with maxRetries 3 and base delay 2000 ms; every error is caught
and reported in the returned record. Alongside the outcome it returns the
argument list of every submission attempt made. -/
def updateOracle (env : UpdateEnv) (prices : MetalPrices) (ethPrice : ℚ) :
    UpdateOutcome × List (List ℤ) :=
  if env.privateKey = "" then
    ({ success := false, txHash := "", error := "PRIVATE_KEY not set" }, [])
  else
    let r := withRetry env.submit 3 2000 15000
    let calls := List.replicate r.2.1 (e6Args prices ethPrice)
    match r.1 with
    | .error e => ({ success := false, txHash := "", error := e }, calls)
    | .ok tx =>
      match env.waitOk with
      | .error e => ({ success := false, txHash := "", error := e }, calls)
      | .ok _ => ({ success := true, txHash := tx.hash, error := "" }, calls)

/-- C8 counterexample: `updateOracle` submits the raw prices converted to E6;
it never reads the spread configuration. At gold price 100 it submits
100000000, whereas applying the default buy spread of 1.5% as the claim
states would submit 101500000. -/
theorem updateOracle_spread_counterexample :
    (updateOracle { privateKey := "k", submit := fun _ => .ok { hash := "0xabc" }, waitOk := .ok () }
        { gold := 100, silver := 10, platinum := 50, palladium := 40 } 2000).2 =
      [[100000000, 10000000, 50000000, 40000000, 2000000000]] ∧
    toE6 (100 * (1 + (getSpreadConfig none).gold.buy / 100)) = 101500000 ∧
    (100000000 : ℤ) ≠ 101500000 := by
  refine ⟨?_, ?_, by decide⟩
  · unfold updateOracle withRetry withRetryGo e6Args
    norm_num [toE6, jsRound]
    rw [if_neg (by decide : ¬("k" = ""))]
  · unfold getSpreadConfig defaultSpreadConfig toE6 jsRound
    norm_num

/-- C8 (amended): when the signing key is present, `updateOracle` submits a
single `setAllPrices` transaction (each of its 1-to-4 retry invocations
carrying identical arguments) whose five E6-encoded arguments are the four
raw metal prices plus the auxiliary ETH price, with no spread applied. -/
theorem updateOracle_raw_e6_single_tx (env : UpdateEnv) (prices : MetalPrices)
    (ethPrice : ℚ) (h : env.privateKey ≠ "") :
    1 ≤ (updateOracle env prices ethPrice).2.length ∧
    (updateOracle env prices ethPrice).2.length ≤ 4 ∧
    ∀ c ∈ (updateOracle env prices ethPrice).2, c = e6Args prices ethPrice := by
  obtain ⟨h1, h2, -, -⟩ := withRetryGo_spec env.submit 2000 15000 3 0
  unfold updateOracle
  rw [if_neg h]
  simp only
  rcases hr : (withRetry env.submit 3 2000 15000).1 with e | tx
  · simp only [hr]
    refine ⟨by simpa using h1, by simpa using h2, fun c hc => (List.eq_of_mem_replicate hc)⟩
  · rcases hw : env.waitOk with e | u <;>
      exact ⟨by simpa using h1, by simpa using h2, fun c hc => (List.eq_of_mem_replicate hc)⟩

/-- Witness for C8: a successful first-attempt submission carries exactly the
raw E6 arguments once. -/
theorem updateOracle_raw_e6_single_tx_witness :
    1 ≤ (updateOracle { privateKey := "k", submit := fun _ => .ok { hash := "0xabc" }, waitOk := .ok () }
        { gold := 100, silver := 10, platinum := 50, palladium := 40 } 2000).2.length ∧
    (updateOracle { privateKey := "k", submit := fun _ => .ok { hash := "0xabc" }, waitOk := .ok () }
        { gold := 100, silver := 10, platinum := 50, palladium := 40 } 2000).2.length ≤ 4 := by
  have h := updateOracle_raw_e6_single_tx
    { privateKey := "k", submit := fun _ => .ok { hash := "0xabc" }, waitOk := .ok () }
    { gold := 100, silver := 10, platinum := 50, palladium := 40 } 2000
    (by decide)
  exact ⟨h.1, h.2.1⟩

-- ════════════════════════════════════════
-- Alert service (src/services/alert-service.ts, sendAlert)
-- ════════════════════════════════════════

inductive AlertType
  | oracleStale
  | priceAnomaly
  | sourceFailure
  | updateFailure
  | killSwitchAlert
  | watcherError
  deriving DecidableEq, Repr

/-- `AlertPayload` (the free-form `data` JSON attachment is elided). -/
structure AlertPayload where
  type : AlertType
  severity : Severity
  title : String
  body : String
  deriving DecidableEq, Repr

/-- Store / network effects performed by one `sendAlert` run. -/
inductive AlertEffect
  | postAttempted (payload : AlertPayload)
  | cooldownSet (t : AlertType) (ttlSeconds : ℕ)
  deriving DecidableEq, Repr

/-- Outcomes of the external calls one `sendAlert` run can make: the Redis
read behind `isAlertOnCooldown`, the HTTP status of the push-send POST (or a
network throw), and the Redis `setex` behind `setAlertCooldown`. -/
structure AlertEnv where
  cooldownVal : Except String Bool
  postStatus : Except String ℕ
  setCooldownOk : Except String Unit
  deriving DecidableEq, Repr

/-- `setAlertCooldown(type, ttlSeconds?)` TTL choice:
`ttlSeconds || CONFIG.alertCooldownSeconds`. -/
def setAlertCooldownTtl (ttlSeconds : Option ℕ) : ℕ :=
  match ttlSeconds with
  | none => alertCooldownSeconds
  | some t => if t = 0 then alertCooldownSeconds else t

/-- `sendAlert(alert)`. The cooldown check runs before the try block, so a
throwing Redis read propagates to the caller; everything inside the try
(POST, status check, cooldown set) is caught and turned into `false`. -/
def sendAlert (env : AlertEnv) (alert : AlertPayload) :
    Except String (Bool × List AlertEffect) :=
  match env.cooldownVal with
  | .error e => .error e
  | .ok true => .ok (false, [])
  | .ok false =>
    match env.postStatus with
    | .error _ => .ok (false, [.postAttempted alert])
    | .ok st =>
      if 200 ≤ st ∧ st ≤ 299 then
        match env.setCooldownOk with
        | .ok _ =>
          .ok (true, [.postAttempted alert, .cooldownSet alert.type (setAlertCooldownTtl none)])
        | .error _ => .ok (false, [.postAttempted alert])
      else .ok (false, [.postAttempted alert])

/-- C9 counterexample: when the Redis read behind the cooldown check throws,
`sendAlert` itself throws (the check sits before the try/catch), refuting
"in no case does sendAlert throw or escalate an error to its caller". -/
theorem sendAlert_throw_counterexample :
    sendAlert { cooldownVal := .error "redis down", postStatus := .ok 200, setCooldownOk := .ok () }
        { type := .updateFailure, severity := .critical, title := "t", body := "b" } =
      .error "redis down" := rfl

/-- C9 (amended): provided the cooldown-check store read itself does not
throw, `sendAlert` never escalates an error: cooldown present → `false`
without posting; successful post with successful cooldown write → cooldown is
set with the default 300 s TTL and the result is `true`; network error,
non-2xx status, or a throwing cooldown write → `false` with no cooldown set.
A failure of the cooldown-check read propagates unchanged. -/
theorem sendAlert_cooldown_behavior (env : AlertEnv) (alert : AlertPayload) :
    (env.cooldownVal = .ok true → sendAlert env alert = .ok (false, [])) ∧
    (env.cooldownVal = .ok false → ∀ st, env.postStatus = .ok st →
      200 ≤ st → st ≤ 299 → env.setCooldownOk = .ok () →
      sendAlert env alert =
        .ok (true, [.postAttempted alert, .cooldownSet alert.type 300])) ∧
    (env.cooldownVal = .ok false → ∀ e, env.postStatus = .error e →
      sendAlert env alert = .ok (false, [.postAttempted alert])) ∧
    (env.cooldownVal = .ok false → ∀ st, env.postStatus = .ok st →
      ¬ (200 ≤ st ∧ st ≤ 299) →
      sendAlert env alert = .ok (false, [.postAttempted alert])) ∧
    (env.cooldownVal = .ok false → ∀ st e, env.postStatus = .ok st →
      env.setCooldownOk = .error e →
      sendAlert env alert = .ok (false, [.postAttempted alert])) ∧
    (∀ e, env.cooldownVal = .error e → sendAlert env alert = .error e) ∧
    (∀ b effs, sendAlert env alert = .ok (b, effs) →
      b = true → AlertEffect.cooldownSet alert.type 300 ∈ effs) := by
  refine ⟨?_, ?_, ?_, ?_, ?_, ?_, ?_⟩
  · intro hcd
    simp [sendAlert, hcd]
  · intro hcd st hst h200 h299 hset
    simp [sendAlert, hcd, hst, hset, h200, h299, setAlertCooldownTtl, alertCooldownSeconds]
  · intro hcd e hst
    simp [sendAlert, hcd, hst]
  · intro hcd st hst hrange
    simp [sendAlert, hcd, hst, hrange]
  · intro hcd st e hst hset
    simp [sendAlert, hcd, hst, hset]
  · intro e hcd
    simp [sendAlert, hcd]
  · intro b effs hok hb
    subst hb
    unfold sendAlert at hok
    split at hok
    · exact Except.noConfusion hok
    · simp at hok
    · split at hok
      · simp at hok
      · split at hok
        · split at hok
          · simp only [Except.ok.injEq, Prod.mk.injEq] at hok
            rw [← hok.2]
            simp [setAlertCooldownTtl, alertCooldownSeconds]
          · simp at hok
        · simp at hok

/-- Witness for C9: a clean send (no cooldown, HTTP 200, store write ok)
returns true and sets the 300 s cooldown marker. -/
theorem sendAlert_cooldown_behavior_witness :
    sendAlert { cooldownVal := .ok false, postStatus := .ok 200, setCooldownOk := .ok () }
        { type := .updateFailure, severity := .critical, title := "t", body := "b" } =
      .ok (true, [.postAttempted { type := .updateFailure, severity := .critical, title := "t", body := "b" },
                  .cooldownSet AlertType.updateFailure 300]) :=
  (sendAlert_cooldown_behavior
    { cooldownVal := .ok false, postStatus := .ok 200, setCooldownOk := .ok () }
    { type := .updateFailure, severity := .critical, title := "t", body := "b" }).2.1
    rfl 200 rfl (by decide) (by decide) rfl

-- ════════════════════════════════════════
-- Scheduler state and tick (src/scheduler.ts, src/services/redis-state.ts)
-- ════════════════════════════════════════

inductive WState
  | running
  | paused
  | error
  | stopped
  deriving DecidableEq, Repr

/-- `WatcherStatus`; `uptimeStart` is `none` for the falsy empty string. -/
structure WatcherStatus where
  state : WState
  uptimeStart : Option ℚ
  errorCount : ℕ
  lastCycleMs : ℕ
  deriving DecidableEq, Repr

structure PriceSnapshot where
  timestamp : ℚ
  fetched : MetalPrices
  onChain : MetalPrices
  deviations : Metal → ℚ
  source : PriceSource

/-- The Redis keys owned by the watcher, as one record. -/
structure Store where
  killSwitch : Bool
  overridePrices : Option MetalPrices
  overrideExpires : Option ℚ
  lastFetch : Option LastFetchRecord
  lastUpdate : Option LastUpdateRecord
  errorCount : ℕ
  status : WatcherStatus
  history : List PriceSnapshot

/-- What `updateOracle` returns to the scheduler when invoked
(`UpdateResult`: success flag, tx references, updated metals, base and
spread-adjusted prices, error message). -/
structure UpdateResultS where
  success : Bool
  txHashes : List String
  updatedMetals : List String
  pricesBase : MetalPrices
  pricesWithSpread : MetalPrices
  error : String
  deriving DecidableEq, Repr

/-- External outcomes one tick can observe: the clock, the cycle duration,
the fetch-chain environment, the chain read, and the result `updateOracle`
would report if invoked. -/
structure TickEnv where
  now : ℚ
  cycleMs : ℕ
  fetchEnv : FetchEnv
  oracleRead : Except String MetalPrices
  update : UpdateResultS

/-- Calls the tick makes into the alert service and the updater. -/
inductive Event
  | alertCalled (payload : AlertPayload)
  | anomalyAlertsCalled (anomalies : List Anomaly)
  | updateInvoked (prices : MetalPrices) (metals : List Metal)
  deriving DecidableEq, Repr

/-- The `source_failure` alert of scheduler step 3. -/
def sourceFailurePayload (errs : List String) : AlertPayload :=
  { type := .sourceFailure
    severity := .warning
    title := "Oracle: All Price Sources Failed"
    body := "GoldAPI and metals.live both failed. Using hardcoded fallback prices. Errors: "
      ++ String.intercalate "; " errs }

/-- The `update_failure` alert of scheduler step 7. -/
def updateFailurePayload (n : ℕ) (err : String) : AlertPayload :=
  { type := .updateFailure
    severity := .critical
    title := "Oracle: Update Failed"
    body := "Oracle blockchain update failed " ++ toString n ++ " consecutive times. Error: " ++ err }

/-- The `watcher_error` auto-pause alert of scheduler step 7. -/
def watcherErrorPayload (n : ℕ) : AlertPayload :=
  { type := .watcherError
    severity := .critical
    title := "Oracle Watcher Auto-Paused"
    body := "Watcher auto-paused after " ++ toString n ++ " consecutive failures. Manual intervention required." }

/-- `getOverridePrices()`: clears and returns null when the stored expiry is
strictly in the past, otherwise returns the stored override prices. -/
def getOverridePrices (s : Store) (now : ℚ) : Option MetalPrices × Store :=
  match s.overrideExpires with
  | some e =>
    if e < now then (none, { s with overridePrices := none, overrideExpires := none })
    else (s.overridePrices, s)
  | none => (s.overridePrices, s)

/-- Step 4 of the tick: `readOraclePrices()` with the all-zero sentinel on a
throwing RPC read. -/
def tickOnChain (env : TickEnv) : MetalPrices :=
  match env.oracleRead with
  | .ok r => r
  | .error _ => { gold := 0, silver := 0, platinum := 0, palladium := 0 }

/-- The store after step 3 of a non-override tick: `setLastFetch` writes the
freshly fetched record. -/
def fetchStore (env : TickEnv) (s1 : Store) : Store :=
  { s1 with lastFetch := some { timestamp := env.now
                                prices := (fetchPrices env.fetchEnv).prices
                                source := (fetchPrices env.fetchEnv).source
                                errors := (fetchPrices env.fetchEnv).errors } }

/-- Intermediate state of one tick after steps 1-5 (override or fetch, chain
read, analysis). -/
structure TickMid where
  fetched : MetalPrices
  src : PriceSource
  s2 : Store
  ev1 : List Event
  onChain : MetalPrices
  analysis : AnalysisResult

/-- Steps 2-5 of the tick: use the override when active, otherwise run the
fetch chain, persist the `LastFetchRecord` and raise the `source_failure`
alert on a hardcoded fallback with errors; then read the chain and analyze.
Note the analyzer reads `last_fetch` AFTER step 3 wrote it. -/
def tickMid (cfg : Config) (env : TickEnv) (s0 : Store) : TickMid :=
  match (getOverridePrices s0 env.now).1 with
  | some p =>
    { fetched := p
      src := .override
      s2 := (getOverridePrices s0 env.now).2
      ev1 := []
      onChain := tickOnChain env
      analysis := analyzePrices cfg env.now p (tickOnChain env)
        ((getOverridePrices s0 env.now).2).lastFetch
        ((getOverridePrices s0 env.now).2).lastUpdate }
  | none =>
    { fetched := (fetchPrices env.fetchEnv).prices
      src := (fetchPrices env.fetchEnv).source
      s2 := fetchStore env (getOverridePrices s0 env.now).2
      ev1 := if (fetchPrices env.fetchEnv).source = .hardcoded ∧ (fetchPrices env.fetchEnv).errors ≠ []
        then [Event.alertCalled (sourceFailurePayload (fetchPrices env.fetchEnv).errors)]
        else []
      onChain := tickOnChain env
      analysis := analyzePrices cfg env.now (fetchPrices env.fetchEnv).prices (tickOnChain env)
        (fetchStore env (getOverridePrices s0 env.now).2).lastFetch
        (fetchStore env (getOverridePrices s0 env.now).2).lastUpdate }

/-- The analysis result computed inside one tick. -/
def tickAnalysis (cfg : Config) (env : TickEnv) (s0 : Store) : AnalysisResult :=
  (tickMid cfg env s0).analysis

/-- Step 7 of the tick: run the updater when an update is needed and the kill
switch is off; on success persist the `LastUpdateRecord` and reset the error
counter; on failure increment it, alert at `alertAfterErrors`, and auto-pause
(kill switch ON plus `watcher_error` alert) at `maxConsecutiveErrors`. -/
def tickUpdate (env : TickEnv) (ksw : Bool) (m : TickMid) : Store × List Event :=
  if m.analysis.shouldUpdate = true ∧ ksw = false then
    if env.update.success then
      ({ m.s2 with
           lastUpdate := some { timestamp := env.now
                                txHashes := env.update.txHashes
                                metals := env.update.updatedMetals
                                source := m.src
                                pricesBase := env.update.pricesBase
                                pricesWithSpread := env.update.pricesWithSpread }
           errorCount := 0 },
       [Event.updateInvoked m.fetched m.analysis.metalsToUpdate])
    else
      if maxConsecutiveErrors ≤ m.s2.errorCount + 1 then
        ({ m.s2 with errorCount := m.s2.errorCount + 1, killSwitch := true },
         Event.updateInvoked m.fetched m.analysis.metalsToUpdate ::
           ((if alertAfterErrors ≤ m.s2.errorCount + 1
             then [Event.alertCalled (updateFailurePayload (m.s2.errorCount + 1) env.update.error)]
             else []) ++
            [Event.alertCalled (watcherErrorPayload (m.s2.errorCount + 1))]))
      else
        ({ m.s2 with errorCount := m.s2.errorCount + 1 },
         Event.updateInvoked m.fetched m.analysis.metalsToUpdate ::
           (if alertAfterErrors ≤ m.s2.errorCount + 1
            then [Event.alertCalled (updateFailurePayload (m.s2.errorCount + 1) env.update.error)]
            else []))
  else (m.s2, [])

/-- Step 6 of the tick: `sendAnomalyAlerts` when anomalies were found. -/
def tickEv2 (m : TickMid) : List Event :=
  if m.analysis.anomalies = [] then [] else [Event.anomalyAlertsCalled m.analysis.anomalies]

/-- Step 8 of the tick: the persisted `WatcherStatus`. -/
def tickStatusOf (env : TickEnv) (ksw : Bool) (s3 : Store) : WatcherStatus :=
  { state := if ksw then WState.paused else WState.running
    uptimeStart := some (s3.status.uptimeStart.getD env.now)
    errorCount := s3.errorCount
    lastCycleMs := env.cycleMs }

/-- Step 9 of the tick: the pushed `PriceSnapshot`. -/
def tickSnapshotOf (env : TickEnv) (m : TickMid) : PriceSnapshot :=
  { timestamp := env.now
    fetched := m.fetched
    onChain := m.onChain
    deviations := m.analysis.deviations
    source := m.src }

/-- One full tick: the new store and the list of alert-service and updater
calls made, in program order (source-failure alert, anomaly alerts, update
branch). The history is trimmed to the 1000 most recent snapshots. -/
def tick (cfg : Config) (env : TickEnv) (s0 : Store) : Store × List Event :=
  ({ (tickUpdate env s0.killSwitch (tickMid cfg env s0)).1 with
       status := tickStatusOf env s0.killSwitch (tickUpdate env s0.killSwitch (tickMid cfg env s0)).1
       history := (tickSnapshotOf env (tickMid cfg env s0) ::
         (tickUpdate env s0.killSwitch (tickMid cfg env s0)).1.history).take 1000 },
   (tickMid cfg env s0).ev1 ++ tickEv2 (tickMid cfg env s0) ++
     (tickUpdate env s0.killSwitch (tickMid cfg env s0)).2)

-- ════════════════════════════════════════
-- Scheduler lemmas and the kill-switch / escalation / override theorems
-- ════════════════════════════════════════

lemma getOverridePrices_fields (s : Store) (now : ℚ) :
    ((getOverridePrices s now).2).killSwitch = s.killSwitch ∧
    ((getOverridePrices s now).2).errorCount = s.errorCount ∧
    ((getOverridePrices s now).2).lastFetch = s.lastFetch ∧
    ((getOverridePrices s now).2).lastUpdate = s.lastUpdate := by
  unfold getOverridePrices
  split
  · split <;> exact ⟨rfl, rfl, rfl, rfl⟩
  · exact ⟨rfl, rfl, rfl, rfl⟩

lemma tickMid_s2_killSwitch (cfg : Config) (env : TickEnv) (s : Store) :
    (tickMid cfg env s).s2.killSwitch = s.killSwitch := by
  unfold tickMid
  split
  · exact (getOverridePrices_fields s env.now).1
  · exact (getOverridePrices_fields s env.now).1

lemma tickMid_s2_errorCount (cfg : Config) (env : TickEnv) (s : Store) :
    (tickMid cfg env s).s2.errorCount = s.errorCount := by
  unfold tickMid
  split
  · exact (getOverridePrices_fields s env.now).2.1
  · exact (getOverridePrices_fields s env.now).2.1

lemma tickMid_ev1_cases (cfg : Config) (env : TickEnv) (s : Store) :
    (tickMid cfg env s).ev1 = [] ∨
    ∃ errs, (tickMid cfg env s).ev1 = [Event.alertCalled (sourceFailurePayload errs)] := by
  unfold tickMid
  split
  · exact Or.inl rfl
  · split
    · exact Or.inr ⟨_, rfl⟩
    · exact Or.inl rfl

lemma tickUpdate_ksw_true (env : TickEnv) (m : TickMid) :
    tickUpdate env true m = (m.s2, []) := by
  simp [tickUpdate]

lemma tickUpdate_killSwitch_mono (env : TickEnv) (ksw : Bool) (m : TickMid)
    (h : m.s2.killSwitch = true) :
    (tickUpdate env ksw m).1.killSwitch = true := by
  unfold tickUpdate
  split
  · split
    · exact h
    · split
      · rfl
      · exact h
  · exact h

lemma tickUpdate_fst_lastFetch (env : TickEnv) (ksw : Bool) (m : TickMid) :
    (tickUpdate env ksw m).1.lastFetch = m.s2.lastFetch := by
  unfold tickUpdate
  split
  · split
    · rfl
    · split <;> rfl
  · rfl

lemma tickUpdate_success (env : TickEnv) (m : TickMid)
    (hup : m.analysis.shouldUpdate = true) (hsucc : env.update.success = true) :
    (tickUpdate env false m).1.errorCount = 0 ∧
    (tickUpdate env false m).2 = [Event.updateInvoked m.fetched m.analysis.metalsToUpdate] := by
  unfold tickUpdate
  rw [if_pos ⟨hup, rfl⟩, if_pos hsucc]
  exact ⟨rfl, rfl⟩

/-- Bool predicate: the event is a `sendAlert` call with an `update_failure` payload. -/
def isUpdateFailureAlert : Event → Bool
  | .alertCalled p =>
    match p.type with
    | .updateFailure => true
    | _ => false
  | _ => false

/-- Bool predicate: the event is a `sendAlert` call with a `watcher_error` payload. -/
def isWatcherErrorAlert : Event → Bool
  | .alertCalled p =>
    match p.type with
    | .watcherError => true
    | _ => false
  | _ => false

lemma tickUpdate_failure (env : TickEnv) (m : TickMid)
    (hup : m.analysis.shouldUpdate = true) (hfail : env.update.success = false) :
    (tickUpdate env false m).1.errorCount = m.s2.errorCount + 1 ∧
    (tickUpdate env false m).1.killSwitch =
      (if maxConsecutiveErrors ≤ m.s2.errorCount + 1 then true else m.s2.killSwitch) ∧
    ((tickUpdate env false m).2).countP isUpdateFailureAlert =
      (if alertAfterErrors ≤ m.s2.errorCount + 1 then 1 else 0) ∧
    ((tickUpdate env false m).2).countP isWatcherErrorAlert =
      (if maxConsecutiveErrors ≤ m.s2.errorCount + 1 then 1 else 0) := by
  unfold tickUpdate
  rw [if_pos ⟨hup, rfl⟩, if_neg (by rw [hfail]; simp)]
  by_cases hmax : maxConsecutiveErrors ≤ m.s2.errorCount + 1
  · rw [if_pos hmax]
    refine ⟨rfl, by rw [if_pos hmax], ?_, ?_⟩
    · by_cases hal : alertAfterErrors ≤ m.s2.errorCount + 1
      · rw [if_pos hal, if_pos hal]
        simp [List.countP_cons, List.countP_nil, isUpdateFailureAlert,
          updateFailurePayload, watcherErrorPayload]
      · rw [if_neg hal, if_neg hal]
        simp [List.countP_cons, List.countP_nil, isUpdateFailureAlert, watcherErrorPayload]
    · rw [if_pos hmax]
      by_cases hal : alertAfterErrors ≤ m.s2.errorCount + 1
      · rw [if_pos hal]
        simp [List.countP_cons, List.countP_nil, isWatcherErrorAlert,
          updateFailurePayload, watcherErrorPayload]
      · rw [if_neg hal]
        simp [List.countP_cons, List.countP_nil, isWatcherErrorAlert, watcherErrorPayload]
  · rw [if_neg hmax]
    refine ⟨rfl, by rw [if_neg hmax], ?_, ?_⟩
    · by_cases hal : alertAfterErrors ≤ m.s2.errorCount + 1
      · rw [if_pos hal, if_pos hal]
        simp [List.countP_cons, List.countP_nil, isUpdateFailureAlert, updateFailurePayload]
      · rw [if_neg hal, if_neg hal]
        simp [List.countP_cons, List.countP_nil, isUpdateFailureAlert]
    · rw [if_neg hmax]
      by_cases hal : alertAfterErrors ≤ m.s2.errorCount + 1
      · rw [if_pos hal]
        simp [List.countP_cons, List.countP_nil, isWatcherErrorAlert, updateFailurePayload]
      · rw [if_neg hal]
        simp [List.countP_cons, List.countP_nil, isWatcherErrorAlert]

lemma tick_snd (cfg : Config) (env : TickEnv) (s : Store) :
    (tick cfg env s).2 =
      (tickMid cfg env s).ev1 ++ tickEv2 (tickMid cfg env s) ++
        (tickUpdate env s.killSwitch (tickMid cfg env s)).2 := rfl

lemma tickMid_ev1_countP (cfg : Config) (env : TickEnv) (s : Store) :
    ((tickMid cfg env s).ev1).countP isUpdateFailureAlert = 0 ∧
    ((tickMid cfg env s).ev1).countP isWatcherErrorAlert = 0 := by
  rcases tickMid_ev1_cases cfg env s with he | ⟨errs, he⟩ <;> rw [he] <;>
    simp [List.countP_cons, List.countP_nil, isUpdateFailureAlert, isWatcherErrorAlert,
      sourceFailurePayload]

lemma tickEv2_countP (m : TickMid) :
    (tickEv2 m).countP isUpdateFailureAlert = 0 ∧
    (tickEv2 m).countP isWatcherErrorAlert = 0 := by
  unfold tickEv2
  split <;> simp [List.countP_cons, List.countP_nil, isUpdateFailureAlert, isWatcherErrorAlert]

/-- C2: when the kill switch read at the start of the tick is ON, the updater
is never invoked during that tick, while detected anomalies are still
dispatched through the alert service. -/
theorem tick_killSwitch_blocks_update (cfg : Config) (env : TickEnv) (s : Store)
    (h : s.killSwitch = true) :
    (∀ p ms, Event.updateInvoked p ms ∉ (tick cfg env s).2) ∧
    ((tickAnalysis cfg env s).anomalies ≠ [] →
      Event.anomalyAlertsCalled (tickAnalysis cfg env s).anomalies ∈ (tick cfg env s).2) := by
  have hsnd := tick_snd cfg env s
  rw [h, tickUpdate_ksw_true] at hsnd
  constructor
  · intro p ms hmem
    rw [hsnd] at hmem
    rcases tickMid_ev1_cases cfg env s with he | ⟨errs, he⟩ <;> rw [he] at hmem <;>
      unfold tickEv2 at hmem <;> split at hmem <;> simp at hmem
  · intro hne
    rw [hsnd]
    have hev : tickEv2 (tickMid cfg env s) =
        [Event.anomalyAlertsCalled (tickAnalysis cfg env s).anomalies] := by
      have hne' : (tickMid cfg env s).analysis.anomalies ≠ [] := hne
      unfold tickEv2
      rw [if_neg hne']
      rfl
    rw [hev]
    simp

/-- C3: the kill switch survives every tick (the tick never clears it), and in
the update branch a success resets the consecutive-error counter, a failure
increments it, dispatches exactly one `update_failure` alert once the counter
is at the alert threshold 3, and at the auto-pause threshold 10 sets the kill
switch ON and dispatches one `watcher_error` alert. -/
theorem tick_failure_escalation (cfg : Config) (env : TickEnv) (s : Store) :
    (s.killSwitch = true → ((tick cfg env s).1).killSwitch = true) ∧
    alertAfterErrors = 3 ∧ maxConsecutiveErrors = 10 ∧
    ((tickAnalysis cfg env s).shouldUpdate = true → s.killSwitch = false →
      (env.update.success = true → ((tick cfg env s).1).errorCount = 0) ∧
      (env.update.success = false →
        ((tick cfg env s).1).errorCount = s.errorCount + 1 ∧
        ((tick cfg env s).2).countP isUpdateFailureAlert =
          (if alertAfterErrors ≤ s.errorCount + 1 then 1 else 0) ∧
        (maxConsecutiveErrors ≤ s.errorCount + 1 →
          ((tick cfg env s).1).killSwitch = true ∧
          ((tick cfg env s).2).countP isWatcherErrorAlert = 1))) := by
  refine ⟨?_, rfl, rfl, ?_⟩
  · intro h
    have h2 : ((tick cfg env s).1).killSwitch =
        ((tickUpdate env s.killSwitch (tickMid cfg env s)).1).killSwitch := rfl
    rw [h2]
    refine tickUpdate_killSwitch_mono env s.killSwitch (tickMid cfg env s) ?_
    rw [tickMid_s2_killSwitch]
    exact h
  · intro hup hks
    have hup' : (tickMid cfg env s).analysis.shouldUpdate = true := hup
    have hec : ((tick cfg env s).1).errorCount =
        ((tickUpdate env s.killSwitch (tickMid cfg env s)).1).errorCount := rfl
    have hkk : ((tick cfg env s).1).killSwitch =
        ((tickUpdate env s.killSwitch (tickMid cfg env s)).1).killSwitch := rfl
    have hevents := tick_snd cfg env s
    rw [hks] at hec hkk hevents
    constructor
    · intro hsucc
      rw [hec]
      exact (tickUpdate_success env (tickMid cfg env s) hup' hsucc).1
    · intro hfail
      obtain ⟨e1, e2, e3, e4⟩ := tickUpdate_failure env (tickMid cfg env s) hup' hfail
      rw [tickMid_s2_errorCount] at e1 e2 e3 e4
      refine ⟨by rw [hec]; exact e1, ?_, ?_⟩
      · rw [hevents, List.countP_append, List.countP_append,
          (tickMid_ev1_countP cfg env s).1, (tickEv2_countP _).1, e3]
        simp
      · intro hmax
        refine ⟨?_, ?_⟩
        · rw [hkk, e2, if_pos hmax]
        · rw [hevents, List.countP_append, List.countP_append,
            (tickMid_ev1_countP cfg env s).2, (tickEv2_countP _).2, e4, if_pos hmax]

lemma getOverridePrices_active (s : Store) (now : ℚ) (p : MetalPrices)
    (hp : s.overridePrices = some p)
    (he : ∀ e, s.overrideExpires = some e → ¬ e < now) :
    getOverridePrices s now = (some p, s) := by
  unfold getOverridePrices
  split
  · next e heq =>
    rw [if_neg (he e heq), hp]
  · rw [hp]

lemma tickMid_override (cfg : Config) (env : TickEnv) (s : Store) (p : MetalPrices)
    (hp : s.overridePrices = some p)
    (he : ∀ e, s.overrideExpires = some e → ¬ e < env.now) :
    tickMid cfg env s =
      { fetched := p, src := .override, s2 := s, ev1 := []
        onChain := tickOnChain env
        analysis := analyzePrices cfg env.now p (tickOnChain env) s.lastFetch s.lastUpdate } := by
  unfold tickMid
  rw [getOverridePrices_active s env.now p hp he]

/-- C10: an unexpired override tick uses the override prices with source
`override`, leaves the stored `last_fetch` untouched, and feeds the analyzer
the previously stored `last_fetch` (the most recent non-override fetch), not
the override values. -/
theorem tick_override_frame (cfg : Config) (env : TickEnv) (s : Store) (p : MetalPrices)
    (hp : s.overridePrices = some p)
    (he : ∀ e, s.overrideExpires = some e → ¬ e < env.now) :
    ((tick cfg env s).1).lastFetch = s.lastFetch ∧
    tickAnalysis cfg env s =
      analyzePrices cfg env.now p (tickOnChain env) s.lastFetch s.lastUpdate ∧
    ∃ snap, ((tick cfg env s).1).history.head? = some snap ∧
      snap.source = PriceSource.override ∧ snap.fetched = p := by
  have hmid := tickMid_override cfg env s p hp he
  refine ⟨?_, ?_, ?_⟩
  · have h1 : ((tick cfg env s).1).lastFetch =
        ((tickUpdate env s.killSwitch (tickMid cfg env s)).1).lastFetch := rfl
    rw [h1, tickUpdate_fst_lastFetch, hmid]
  · unfold tickAnalysis
    rw [hmid]
  · refine ⟨tickSnapshotOf env (tickMid cfg env s), ?_, ?_, ?_⟩
    · have h2 : ((tick cfg env s).1).history =
        (tickSnapshotOf env (tickMid cfg env s) ::
          (tickUpdate env s.killSwitch (tickMid cfg env s)).1.history).take 1000 := rfl
      rw [h2]
      rfl
    · unfold tickSnapshotOf
      rw [hmid]
    · unfold tickSnapshotOf
      rw [hmid]

-- ════════════════════════════════════════
-- Concrete tick scenarios (witness fixtures)
-- ════════════════════════════════════════

/-- A fetch environment in which every external source fails. -/
def fetchEnvAllFail : FetchEnv :=
  { goldApiKey := ""
    goldapi := { xau := .error "x", xag := .error "x", xpt := .error "x", xpd := .error "x" }
    metalsLive := .error "metals.live: HTTP 500"
    stale := .ok none
    elapsedMs := 0 }

def statusZero : WatcherStatus :=
  { state := .running, uptimeStart := none, errorCount := 0, lastCycleMs := 0 }

/-- A failing updater outcome. -/
def updFail : UpdateResultS :=
  { success := false, txHashes := [], updatedMetals := [], pricesBase := fallbackPricesOz
    pricesWithSpread := fallbackPricesOz, error := "rpc down" }

def storeKswOn : Store :=
  { killSwitch := true, overridePrices := some fallbackPricesOz, overrideExpires := none
    lastFetch := none
    lastUpdate := some { timestamp := 0, txHashes := [], metals := [], source := .goldapi
                         pricesBase := fallbackPricesOz, pricesWithSpread := fallbackPricesOz }
    errorCount := 0, status := statusZero, history := [] }

def envKswOn : TickEnv :=
  { now := 1000000000, cycleMs := 0, fetchEnv := fetchEnvAllFail
    oracleRead := .ok fallbackPricesOz, update := updFail }

/-- Witness for C2: kill switch ON, an hour-stale oracle produces a
`stale_data` anomaly which is dispatched, while the updater is not called. -/
theorem tick_killSwitch_blocks_update_witness :
    Event.anomalyAlertsCalled (tickAnalysis defaultConfig envKswOn storeKswOn).anomalies ∈
      (tick defaultConfig envKswOn storeKswOn).2 ∧
    Event.updateInvoked fallbackPricesOz [] ∉ (tick defaultConfig envKswOn storeKswOn).2 := by
  have h := tick_killSwitch_blocks_update defaultConfig envKswOn storeKswOn rfl
  have hne : (tickAnalysis defaultConfig envKswOn storeKswOn).anomalies ≠ [] := by
    norm_num [tickAnalysis, tickMid, getOverridePrices, storeKswOn, envKswOn, updFail,
      fetchEnvAllFail, statusZero, analyzePrices, staleAnomalies, defaultConfig, fallbackPricesOz]
  exact ⟨h.2 hne, h.1 fallbackPricesOz []⟩

def storeNineErrors : Store :=
  { killSwitch := false, overridePrices := none, overrideExpires := none
    lastFetch := none, lastUpdate := none, errorCount := 9, status := statusZero, history := [] }

def envChainDown : TickEnv :=
  { now := 0, cycleMs := 0, fetchEnv := fetchEnvAllFail
    oracleRead := .error "rpc down", update := updFail }

/-- Witness for C3: a 10th consecutive failure increments the counter to 10,
flips the kill switch on, and dispatches one `watcher_error` and one
`update_failure` alert. -/
theorem tick_failure_escalation_witness :
    ((tick defaultConfig envChainDown storeNineErrors).1).errorCount = storeNineErrors.errorCount + 1 ∧
    ((tick defaultConfig envChainDown storeNineErrors).1).killSwitch = true ∧
    ((tick defaultConfig envChainDown storeNineErrors).2).countP isWatcherErrorAlert = 1 ∧
    ((tick defaultConfig envChainDown storeNineErrors).2).countP isUpdateFailureAlert =
      (if alertAfterErrors ≤ storeNineErrors.errorCount + 1 then 1 else 0) := by
  have hup : (tickAnalysis defaultConfig envChainDown storeNineErrors).shouldUpdate = true := by
    norm_num [tickAnalysis, tickMid, getOverridePrices, storeNineErrors, envChainDown, updFail,
      fetchEnvAllFail, statusZero, analyzePrices, flaggedFor, metalsList, tickOnChain,
      MetalPrices.get, defaultConfig, fetchStore]
  have h := (tick_failure_escalation defaultConfig envChainDown storeNineErrors).2.2.2
    hup rfl
  have h2 := h.2 rfl
  exact ⟨h2.1, (h2.2.2 (by decide)).1, (h2.2.2 (by decide)).2, h2.2.1⟩

def recBeforeOverride : LastFetchRecord :=
  { timestamp := 0, prices := fallbackPricesOz, source := .goldapi, errors := [] }

def storeOverride : Store :=
  { killSwitch := false
    overridePrices := some { gold := 200, silver := 3, platinum := 80, palladium := 60 }
    overrideExpires := some 2000
    lastFetch := some recBeforeOverride, lastUpdate := none, errorCount := 0
    status := statusZero, history := [] }

def envOverride : TickEnv :=
  { now := 1000, cycleMs := 0, fetchEnv := fetchEnvAllFail
    oracleRead := .ok fallbackPricesOz, update := updFail }

/-- Witness for C10: an override expiring at 2000 observed at 1000 leaves the
stored `last_fetch` untouched and pushes a snapshot with source `override`. -/
theorem tick_override_frame_witness :
    ((tick defaultConfig envOverride storeOverride).1).lastFetch = some recBeforeOverride ∧
    (((tick defaultConfig envOverride storeOverride).1).history.head?.map PriceSnapshot.source) =
      some PriceSource.override := by
  have h := tick_override_frame defaultConfig envOverride storeOverride
    { gold := 200, silver := 3, platinum := 80, palladium := 60 } rfl
    (fun e hee => by
      rw [show storeOverride.overrideExpires = some (2000 : ℚ) from rfl] at hee
      injection hee with h1
      rw [← h1]
      norm_num [envOverride])
  obtain ⟨snap, hh, hs, hf⟩ := h.2.2
  refine ⟨h.1, ?_⟩
  rw [hh]
  simp [hs]

end OracleWatcher
